import Mathlib

/-!
# Land Suitability Engine — verification of the scoring core

Shallow embedding of the scoring core of `app.py`:
`compute_parcel_score`, `score_to_bucket`, `bucket_to_class`,
`simulate_sentiment_score`, and the static `TAP_DATA` parcels.

Python floats are modelled as exact rationals (`ℚ`); all raw inputs are
integers, so no rounding occurs in the source computation either.
Python strings are modelled as `String` / `List Char`; `str.lower` is
modelled per-character (the source only meets ASCII data), and
`str.count` is modelled as counting non-overlapping occurrences scanning
left to right, which is Python's semantics for a non-empty pattern.
-/

namespace LandEngine

/-- A parcel record, mirroring one entry of `TAP_DATA` in `app.py`.
Raw factor scores are already 0–100, higher is better;
`historical_contamination` is lower-is-better and gets inverted. -/
structure Parcel where
  city : String
  lat : ℚ
  lon : ℚ
  power_dist : ℚ
  fiber_dist : ℚ
  water_access : ℚ
  highway_access : ℚ
  rail_access : ℚ
  solar_potential : ℚ
  wind_potential : ℚ
  flood_zone_bool : Bool
  historical_contamination : ℚ
  council_sentiment : ℚ

/-- The nine slider weights, mirroring the `weights` dict built by
`render_sidebar` in `app.py` (keys power, fiber, water, highway, rail,
solar, wind, flood_risk, sentiment). -/
structure Weights where
  power : ℚ
  fiber : ℚ
  water : ℚ
  highway : ℚ
  rail : ℚ
  solar : ℚ
  wind : ℚ
  flood_risk : ℚ
  sentiment : ℚ

/-- `weights.get(key, 0.0)` of the source: look a slider weight up by its
string key, defaulting to 0 for unknown keys. -/
def Weights.get (w : Weights) (k : String) : ℚ :=
  if k = "power" then w.power
  else if k = "fiber" then w.fiber
  else if k = "water" then w.water
  else if k = "highway" then w.highway
  else if k = "rail" then w.rail
  else if k = "solar" then w.solar
  else if k = "wind" then w.wind
  else if k = "flood_risk" then w.flood_risk
  else if k = "sentiment" then w.sentiment
  else 0

/-- The `weight_mapping` dict of `compute_parcel_score`: factor label →
slider-weight key.  `Clean History` and `Council Sentiment` both map to
`sentiment`; `Low Flood Exposure` maps to `flood_risk`. -/
def weight_mapping (label : String) : String :=
  if label = "Power" then "power"
  else if label = "Fiber" then "fiber"
  else if label = "Water" then "water"
  else if label = "Highway" then "highway"
  else if label = "Rail" then "rail"
  else if label = "Solar GHI" then "solar"
  else if label = "Wind" then "wind"
  else if label = "Low Flood Exposure" then "flood_risk"
  else if label = "Council Sentiment" then "sentiment"
  else if label = "Clean History" then "sentiment"
  else ""

/-- The `factor_scores` dict of `compute_parcel_score`, in source
(insertion) order: the ten labelled, normalized factor values. -/
def factor_scores (parcel : Parcel) (flood_risk_slider : Int) : List (String × ℚ) :=
  [("Power", parcel.power_dist),
   ("Fiber", parcel.fiber_dist),
   ("Water", parcel.water_access),
   ("Highway", parcel.highway_access),
   ("Rail", parcel.rail_access),
   ("Solar GHI", parcel.solar_potential),
   ("Wind", parcel.wind_potential),
   ("Low Flood Exposure",
     if parcel.flood_zone_bool then max 0 (100 - 10 * (flood_risk_slider : ℚ)) else 100),
   ("Clean History", 100 - parcel.historical_contamination),
   ("Council Sentiment", parcel.council_sentiment)]

/-- The accumulation loop of `compute_parcel_score`: returns
`(weighted_sum, total_weight, factor_contributions)`.  A factor with
weight ≤ 0 is skipped (`continue`); otherwise `contribution = raw * w`
is added to the sum, `w * 100` to the total possible weight, and the
labelled contribution is recorded in iteration order. -/
def score_loop (weights : Weights) : List (String × ℚ) → ℚ × ℚ × List (String × ℚ)
  | [] => (0, 0, [])
  | (label, raw) :: rest =>
    let w := weights.get (weight_mapping label)
    let r := score_loop weights rest
    if w ≤ 0 then r
    else (raw * w + r.1, w * 100 + r.2.1, (label, raw * w) :: r.2.2)

/-- The tail of `compute_parcel_score` after the loop: if
`total_weight == 0` return score 0 with the (necessarily empty)
contributions, else `score = 100 * weighted_sum / total_weight`. -/
def score_finish (r : ℚ × ℚ × List (String × ℚ)) : ℚ × List (String × ℚ) :=
  if r.2.1 = 0 then (0, r.2.2) else (100 * r.1 / r.2.1, r.2.2)

/-- `compute_parcel_score(parcel, weights, flood_risk_slider)`:
zero-out gate first (`flood_risk_slider >= 7 and flood_zone` →
`(0.0, {})`), then the weighted normalized aggregation. -/
def compute_parcel_score (parcel : Parcel) (weights : Weights)
    (flood_risk_slider : Int) : ℚ × List (String × ℚ) :=
  if 7 ≤ flood_risk_slider ∧ parcel.flood_zone_bool = true then (0, [])
  else score_finish (score_loop weights (factor_scores parcel flood_risk_slider))

/-- `score_to_bucket` of `app.py`. -/
def score_to_bucket (score : ℚ) : String :=
  if 75 ≤ score then "High"
  else if 50 ≤ score then "Medium"
  else "Low"

/-- `bucket_to_class` of `app.py`. -/
def bucket_to_class (score : ℚ) : String :=
  if 75 ≤ score then "pill-high"
  else if 50 ≤ score then "pill-medium"
  else "pill-low"

/-- The Rosemount entry of `TAP_DATA`. -/
def rosemount : Parcel :=
  { city := "Rosemount, MN", lat := 44.739, lon := -93.093
    power_dist := 92, fiber_dist := 88, water_access := 85
    highway_access := 78, rail_access := 60, solar_potential := 74
    wind_potential := 58, flood_zone_bool := false
    historical_contamination := 15, council_sentiment := 82 }

/-- The Farmington entry of `TAP_DATA`. -/
def farmington : Parcel :=
  { city := "Farmington, MN", lat := 44.637, lon := -93.145
    power_dist := 80, fiber_dist := 75, water_access := 72
    highway_access := 82, rail_access := 68, solar_potential := 79
    wind_potential := 65, flood_zone_bool := true
    historical_contamination := 28, council_sentiment := 70 }

/-- The Becker entry of `TAP_DATA`. -/
def becker : Parcel :=
  { city := "Becker, MN", lat := 45.392, lon := -93.871
    power_dist := 96, fiber_dist := 70, water_access := 90
    highway_access := 88, rail_access := 92, solar_potential := 69
    wind_potential := 83, flood_zone_bool := false
    historical_contamination := 40, council_sentiment := 76 }

/-- The `Data Center` persona weight preset of `PERSONA_WEIGHTS`. -/
def dataCenterWeights : Weights :=
  { power := 10, fiber := 9, water := 5, highway := 4, rail := 2
    solar := 5, wind := 2, flood_risk := 9, sentiment := 7 }

/-- Helper for `countOccurrences`: scan `t` left to right; `skip > 0`
means the position is still inside the previous match and is not tested;
a match at the head counts 1 and causes the following `w.length - 1`
positions to be skipped. -/
def countOccAux (w : List Char) : List Char → Nat → Nat
  | [], _ => 0
  | c :: rest, skip =>
    if skip ≠ 0 then countOccAux w rest (skip - 1)
    else if w.isPrefixOf (c :: rest) ∧ w ≠ [] then
      1 + countOccAux w rest (w.length - 1)
    else countOccAux w rest 0

/-- Python `str.count(w)` for a non-empty pattern `w`: the number of
non-overlapping occurrences of `w` in `t`, scanning left to right and
advancing past each match (the next candidate position after a match at
`i` is `i + w.length`). -/
def countOccurrences (w t : List Char) : Nat :=
  countOccAux w t 0

/-- The number of (possibly overlapping) occurrences of `w` in `t`:
one count per starting position at which `w` matches. -/
def countOverlapping (w : List Char) : List Char → Nat
  | [] => 0
  | c :: rest =>
    (if w.isPrefixOf (c :: rest) then 1 else 0) + countOverlapping w rest

/-- Python's whitespace test for `str.strip()` on ASCII data. -/
def pythonIsSpace (c : Char) : Bool :=
  c = ' ' || c = '\t' || c = '\n' || c = '\r' || c = '\x0b' || c = '\x0c'

/-- Python `str.lower()`, per character (the source only meets ASCII). -/
def pyLower (t : List Char) : List Char :=
  t.map Char.toLower

/-- The `positive_words` list of `simulate_sentiment_score`. -/
def positive_words : List String :=
  ["support", "in favor", "approve", "opportunity",
   "jobs", "investment", "strategic", "tax base"]

/-- The `negative_words` list of `simulate_sentiment_score`. -/
def negative_words : List String :=
  ["oppose", "against", "concern", "delay", "litigation",
   "moratorium", "protest", "traffic", "pollution"]

/-- `simulate_sentiment_score(text)` of `app.py`: neutral 50 on empty or
whitespace-only input, else `int(max(0, min(100, 50 + 10 * (pos - neg))))`
where `pos`/`neg` sum `t.count(w)` over the fixed word lists on the
lower-cased text (all quantities are integers, so `int(...)` is the
identity here). -/
def simulate_sentiment_score (text : String) : Int :=
  if text.data.isEmpty || text.data.all pythonIsSpace then 50
  else
    let t := pyLower text.data
    let pos_hits : Nat := (positive_words.map fun w => countOccurrences w.data t).sum
    let neg_hits : Nat := (negative_words.map fun w => countOccurrences w.data t).sum
    max 0 (min 100 (50 + 10 * ((pos_hits : Int) - (neg_hits : Int))))

/-- Follows the spec's words, for comparison with the source function:
the same sentiment computation but with `pos`/`neg` counting possibly
*overlapping* substring occurrences ("substring counts, overlapping not
excluded"). -/
def sentiment_score_overlapping (text : String) : Int :=
  if text.data.isEmpty || text.data.all pythonIsSpace then 50
  else
    let t := pyLower text.data
    let pos_hits : Nat := (positive_words.map fun w => countOverlapping w.data t).sum
    let neg_hits : Nat := (negative_words.map fun w => countOverlapping w.data t).sum
    max 0 (min 100 (50 + 10 * ((pos_hits : Int) - (neg_hits : Int))))

/-- A Python value stored in a parcel record: a number, a boolean, or a
string (the source records hold ints, floats, bools and the city
label). -/
inductive PyVal where
  | num (q : ℚ)
  | bool (b : Bool)
  | str (s : String)
deriving DecidableEq

/-- A Python dict with string keys, as an insertion-ordered association
list. -/
abbrev PyDict := List (String × PyVal)

/-- Numeric coercion as Python arithmetic applies it: numbers are
themselves, `bool` is an `int` subclass (`True = 1`, `False = 0`), and a
string in a numeric position is a `TypeError` (`none`). -/
def pyNum : PyVal → Option ℚ
  | .num q => some q
  | .bool b => some (if b then 1 else 0)
  | .str _ => none

/-- Python truthiness of a stored value. -/
def pyTruthy : PyVal → Bool
  | .num q => decide (q ≠ 0)
  | .bool b => b
  | .str s => decide (s ≠ "")

/-- `parcel[k]` read in a numeric position, with the dict threaded
through: a read leaves the dict unchanged. -/
def read_num (d : PyDict) (k : String) : Option ℚ × PyDict :=
  (match d.lookup k with
   | none => none
   | some v => pyNum v, d)

/-- `parcel[k]` read in a boolean (truthiness) position, threading the
dict. -/
def read_truthy (d : PyDict) (k : String) : Option Bool × PyDict :=
  (match d.lookup k with
   | none => none
   | some v => some (pyTruthy v), d)

/-- `weights.get(k, 0.0)` with the weights dict threaded through: a read
leaves the dict unchanged. -/
def wdict_get (d : List (String × ℚ)) (k : String) : ℚ × List (String × ℚ) :=
  ((d.lookup k).getD 0, d)

/-- The accumulation loop of `compute_parcel_score` over an explicit
weights dict, threading the dict through every read it performs. -/
def score_loop_state (w : List (String × ℚ)) :
    List (String × ℚ) → (ℚ × ℚ × List (String × ℚ)) × List (String × ℚ)
  | [] => ((0, 0, []), w)
  | (label, raw) :: rest =>
    let g := wdict_get w (weight_mapping label)
    let r := score_loop_state g.2 rest
    if g.1 ≤ 0 then r
    else ((raw * g.1 + r.1.1, g.1 * 100 + r.1.2.1, (label, raw * g.1) :: r.1.2.2), r.2)

/-- `compute_parcel_score` over explicit Python dicts, with both mapping
arguments threaded through every read the source performs, returning
them alongside the result; `none` models a raised `KeyError`/`TypeError`
(ill-formed parcel record). -/
def compute_parcel_score_state (parcel : PyDict) (weights : List (String × ℚ))
    (flood_risk_slider : Int) :
    Option ((ℚ × List (String × ℚ)) × PyDict × List (String × ℚ)) :=
  match read_truthy parcel "flood_zone_bool" with
  | (none, _) => none
  | (some flood_zone, p1) =>
    if 7 ≤ flood_risk_slider ∧ flood_zone then some ((0, []), p1, weights)
    else
      match read_num p1 "power_dist" with
      | (none, _) => none
      | (some power, p2) =>
      match read_num p2 "fiber_dist" with
      | (none, _) => none
      | (some fiber, p3) =>
      match read_num p3 "water_access" with
      | (none, _) => none
      | (some water, p4) =>
      match read_num p4 "highway_access" with
      | (none, _) => none
      | (some highway, p5) =>
      match read_num p5 "rail_access" with
      | (none, _) => none
      | (some rail, p6) =>
      match read_num p6 "solar_potential" with
      | (none, _) => none
      | (some solar, p7) =>
      match read_num p7 "wind_potential" with
      | (none, _) => none
      | (some wind, p8) =>
      match read_num p8 "historical_contamination" with
      | (none, _) => none
      | (some hist, p9) =>
      match read_num p9 "council_sentiment" with
      | (none, _) => none
      | (some sentiment, p10) =>
        let fs : List (String × ℚ) :=
          [("Power", power), ("Fiber", fiber), ("Water", water),
           ("Highway", highway), ("Rail", rail), ("Solar GHI", solar),
           ("Wind", wind),
           ("Low Flood Exposure",
             if flood_zone then max 0 (100 - 10 * (flood_risk_slider : ℚ)) else 100),
           ("Clean History", 100 - hist), ("Council Sentiment", sentiment)]
        let r := score_loop_state weights fs
        if r.1.2.1 = 0 then some ((0, r.1.2.2), p10, r.2)
        else some ((100 * r.1.1 / r.1.2.1, r.1.2.2), p10, r.2)

/-- Weight set with `power = 10` and every other weight 0, as in the
spec's single-factor test. -/
def powerOnlyWeights : Weights :=
  { power := 10, fiber := 0, water := 0, highway := 0, rail := 0
    solar := 0, wind := 0, flood_risk := 0, sentiment := 0 }

/-- Weight set with every weight 0. -/
def zeroWeights : Weights :=
  { power := 0, fiber := 0, water := 0, highway := 0, rail := 0
    solar := 0, wind := 0, flood_risk := 0, sentiment := 0 }

/-- C1: for every parcel flagged as in a flood zone and every weight
set, if the flood-risk aversion weight (passed as `flood_risk_slider`)
is at least 7, `compute_parcel_score` returns score 0 and an empty
contributions mapping, regardless of all other inputs. -/
theorem flood_gate_zeroes_score (parcel : Parcel) (weights : Weights)
    (flood_risk_slider : Int) (hfz : parcel.flood_zone_bool = true)
    (hs : 7 ≤ flood_risk_slider) :
    compute_parcel_score parcel weights flood_risk_slider = (0, []) := by
  simp [compute_parcel_score, hfz, hs]

/-- Witness for C1: the Farmington flood-zone parcel with the Data
Center persona weights and aversion 9 scores exactly 0 with no
contributions. -/
theorem flood_gate_zeroes_score_witness :
    farmington.flood_zone_bool = true ∧ (7 : Int) ≤ 9 ∧
      compute_parcel_score farmington dataCenterWeights 9 = (0, []) :=
  ⟨rfl, by norm_num,
    flood_gate_zeroes_score farmington dataCenterWeights 9 rfl (by norm_num)⟩

/-- C3 counterexample: for the Rosemount parcel with `power = 10` and
all other weights 0 (so the flood slider is 0), the computed score is
not 100 — Rosemount's raw power factor is 92, and the score normalizes
to the factor value, not to 100. -/
theorem rosemount_power_only_score_ne_100 :
    (compute_parcel_score rosemount powerOnlyWeights 0).1 ≠ 100 := by
  have h : (compute_parcel_score rosemount powerOnlyWeights 0).1 = 92 := by
    simp [compute_parcel_score, score_finish, score_loop, factor_scores,
      weight_mapping, Weights.get, rosemount, powerOnlyWeights]
    norm_num
  rw [h]; norm_num

/-- C3 amended: for the Rosemount parcel with `power = 10` and all other
weights 0, `compute_parcel_score` returns score 92 — the raw power
factor value — with the single contribution `Power ↦ 920`. -/
theorem rosemount_power_only_score_eq_92 :
    compute_parcel_score rosemount powerOnlyWeights 0 = (92, [("Power", 920)]) := by
  simp [compute_parcel_score, score_finish, score_loop, factor_scores,
    weight_mapping, Weights.get, rosemount, powerOnlyWeights]
  norm_num

/-- C4 counterexample: on the input `"moratoriumoratorium"` the source
function (non-overlapping `str.count` semantics) returns 40, while the
spec's formula with possibly-overlapping occurrence counts gives 30
(the two overlapping occurrences of `"moratorium"` count twice). -/
theorem sentiment_overlap_counterexample :
    simulate_sentiment_score "moratoriumoratorium" = 40 ∧
    sentiment_score_overlapping "moratoriumoratorium" = 30 ∧
    simulate_sentiment_score "moratoriumoratorium" ≠
      sentiment_score_overlapping "moratoriumoratorium" := by
  refine ⟨by decide, by decide, by decide⟩

/-- C5 counterexample: on the spec's example text the heuristic does not
return 90. -/
theorem sentiment_example_ne_90 :
    simulate_sentiment_score
      "We strongly support this investment and the jobs it brings" ≠ 90 := by
  decide

/-- C5 amended: the example text contains 3 positive hits (support,
investment, jobs) and 0 negative hits, so the heuristic returns
`min(100, 50 + 30) = 80`. -/
theorem sentiment_example_eq_80 :
    (positive_words.map fun w =>
      countOccurrences w.data
        (pyLower "We strongly support this investment and the jobs it brings".data)).sum = 3 ∧
    (negative_words.map fun w =>
      countOccurrences w.data
        (pyLower "We strongly support this investment and the jobs it brings".data)).sum = 0 ∧
    simulate_sentiment_score
      "We strongly support this investment and the jobs it brings" = 80 := by
  refine ⟨by decide, by decide, by decide⟩

/-- C7: the sentiment heuristic returns exactly 50 on every input that
is empty or consists only of whitespace characters. -/
theorem sentiment_whitespace_neutral (text : String)
    (h : text.data.all pythonIsSpace = true) :
    simulate_sentiment_score text = 50 := by
  simp [simulate_sentiment_score, h]

/-- Witness for C7: the whitespace-only input `"  \t "` scores 50. -/
theorem sentiment_whitespace_neutral_witness :
    "  \t ".data.all pythonIsSpace = true ∧
      simulate_sentiment_score "  \t " = 50 :=
  ⟨by decide, sentiment_whitespace_neutral "  \t " (by decide)⟩

/-- C8: `score_to_bucket` returns High exactly on scores ≥ 75, Medium
exactly on 50 ≤ score < 75, Low exactly on scores < 50 (boundaries 75
and 50 go to the higher tier), and `bucket_to_class` applies the
identical thresholds, so the display class always agrees with the
bucket. -/
theorem bucket_thresholds (s : ℚ) :
    (score_to_bucket s = "High" ↔ 75 ≤ s) ∧
    (score_to_bucket s = "Medium" ↔ 50 ≤ s ∧ s < 75) ∧
    (score_to_bucket s = "Low" ↔ s < 50) ∧
    (bucket_to_class s = "pill-high" ↔ score_to_bucket s = "High") ∧
    (bucket_to_class s = "pill-medium" ↔ score_to_bucket s = "Medium") ∧
    (bucket_to_class s = "pill-low" ↔ score_to_bucket s = "Low") := by
  unfold score_to_bucket bucket_to_class
  split_ifs with h1 h2 <;> refine ⟨?_, ?_, ?_, ?_, ?_, ?_⟩ <;>
    simp_all <;> linarith

/-- If every slider weight is ≤ 0, every key lookup yields a
non-positive weight (unknown keys default to 0). -/
theorem Weights.get_nonpos (w : Weights) (hp : w.power ≤ 0) (hf : w.fiber ≤ 0)
    (hw : w.water ≤ 0) (hh : w.highway ≤ 0) (hr : w.rail ≤ 0)
    (hso : w.solar ≤ 0) (hwi : w.wind ≤ 0) (hfr : w.flood_risk ≤ 0)
    (hse : w.sentiment ≤ 0) (k : String) : w.get k ≤ 0 := by
  unfold Weights.get
  split_ifs <;> first | assumption | exact le_refl 0

/-- With only non-positive weights every factor is skipped, so the loop
accumulates nothing. -/
theorem score_loop_all_skipped (weights : Weights)
    (hall : ∀ k, weights.get k ≤ 0) :
    ∀ fs : List (String × ℚ), score_loop weights fs = (0, 0, []) := by
  intro fs
  induction fs with
  | nil => rfl
  | cons x rest ih =>
    obtain ⟨label, raw⟩ := x
    simp [score_loop, ih, hall (weight_mapping label)]

/-- C6: when no factor receives a positive weight and the flood gate
does not fire, `compute_parcel_score` returns score 0 with an empty
contributions mapping (the defined `total_weight == 0` fallback); in
particular every all-zero weight set scores 0 on every parcel. -/
theorem no_positive_weight_scores_zero (parcel : Parcel) (weights : Weights)
    (slider : Int) (hp : weights.power ≤ 0) (hf : weights.fiber ≤ 0)
    (hw : weights.water ≤ 0) (hh : weights.highway ≤ 0)
    (hr : weights.rail ≤ 0) (hso : weights.solar ≤ 0)
    (hwi : weights.wind ≤ 0) (hfr : weights.flood_risk ≤ 0)
    (hse : weights.sentiment ≤ 0)
    (hg : ¬(7 ≤ slider ∧ parcel.flood_zone_bool = true)) :
    compute_parcel_score parcel weights slider = (0, []) := by
  have hall : ∀ k, weights.get k ≤ 0 :=
    Weights.get_nonpos weights hp hf hw hh hr hso hwi hfr hse
  rw [compute_parcel_score, if_neg hg,
    score_loop_all_skipped weights hall (factor_scores parcel slider)]
  simp [score_finish]

/-- Witness for C6: the all-zero weight set (with slider 0) scores the
Becker parcel at exactly 0 with no contributions. -/
theorem no_positive_weight_scores_zero_witness :
    (zeroWeights.power ≤ 0 ∧ zeroWeights.sentiment ≤ 0) ∧
    ¬((7 : Int) ≤ 0 ∧ becker.flood_zone_bool = true) ∧
    compute_parcel_score becker zeroWeights 0 = (0, []) :=
  ⟨⟨by norm_num [zeroWeights], by norm_num [zeroWeights]⟩,
   by norm_num,
   no_positive_weight_scores_zero becker zeroWeights 0
     (by norm_num [zeroWeights]) (by norm_num [zeroWeights])
     (by norm_num [zeroWeights]) (by norm_num [zeroWeights])
     (by norm_num [zeroWeights]) (by norm_num [zeroWeights])
     (by norm_num [zeroWeights]) (by norm_num [zeroWeights])
     (by norm_num [zeroWeights]) (by norm_num)⟩

/-- C9: inside `compute_parcel_score` the normalized Low Flood Exposure
factor is 100 for non-flood parcels and `max(0, 100 − 10·w)` for
flood-zone parcels — reaching 0 once the aversion weight is ≥ 10 —
Clean History is `100 − historical_contamination`, and the other eight
factors pass their raw values through unchanged. -/
theorem factor_normalization (parcel : Parcel) (slider : Int) :
    (parcel.flood_zone_bool = false →
      (factor_scores parcel slider).lookup "Low Flood Exposure" = some 100) ∧
    (parcel.flood_zone_bool = true →
      (factor_scores parcel slider).lookup "Low Flood Exposure" =
        some (max 0 (100 - 10 * (slider : ℚ)))) ∧
    (parcel.flood_zone_bool = true → 10 ≤ slider →
      (factor_scores parcel slider).lookup "Low Flood Exposure" = some 0) ∧
    (factor_scores parcel slider).lookup "Clean History" =
      some (100 - parcel.historical_contamination) ∧
    (factor_scores parcel slider).lookup "Power" = some parcel.power_dist ∧
    (factor_scores parcel slider).lookup "Fiber" = some parcel.fiber_dist ∧
    (factor_scores parcel slider).lookup "Water" = some parcel.water_access ∧
    (factor_scores parcel slider).lookup "Highway" = some parcel.highway_access ∧
    (factor_scores parcel slider).lookup "Rail" = some parcel.rail_access ∧
    (factor_scores parcel slider).lookup "Solar GHI" = some parcel.solar_potential ∧
    (factor_scores parcel slider).lookup "Wind" = some parcel.wind_potential ∧
    (factor_scores parcel slider).lookup "Council Sentiment" =
      some parcel.council_sentiment := by
  refine ⟨fun hfz => ?_, fun hfz => ?_, fun hfz hs => ?_,
    ?_, ?_, ?_, ?_, ?_, ?_, ?_, ?_, ?_⟩ <;>
    simp [factor_scores, List.lookup]
  · simp [hfz]
  · simp [hfz]
  · have hq : (10 : ℚ) ≤ (slider : ℚ) := by exact_mod_cast hs
    have hmax : max 0 (100 - 10 * (slider : ℚ)) = 0 :=
      max_eq_left (by linarith)
    simp [hfz, hmax]

/-- Witness for C9: for the flood-zone Farmington parcel at aversion
weight 10 the Low Flood Exposure factor is exactly 0. -/
theorem factor_normalization_witness :
    farmington.flood_zone_bool = true ∧ (10 : Int) ≤ 10 ∧
      (factor_scores farmington 10).lookup "Low Flood Exposure" = some 0 :=
  ⟨rfl, by norm_num,
    (factor_normalization farmington 10).2.2.1 rfl (by norm_num)⟩

/-- The spec's input invariant on a parcel: the eight higher-is-better
raw factors and historical contamination all lie in [0, 100]. -/
def Parcel.inRange (p : Parcel) : Prop :=
  0 ≤ p.power_dist ∧ p.power_dist ≤ 100 ∧
  0 ≤ p.fiber_dist ∧ p.fiber_dist ≤ 100 ∧
  0 ≤ p.water_access ∧ p.water_access ≤ 100 ∧
  0 ≤ p.highway_access ∧ p.highway_access ≤ 100 ∧
  0 ≤ p.rail_access ∧ p.rail_access ≤ 100 ∧
  0 ≤ p.solar_potential ∧ p.solar_potential ≤ 100 ∧
  0 ≤ p.wind_potential ∧ p.wind_potential ≤ 100 ∧
  0 ≤ p.council_sentiment ∧ p.council_sentiment ≤ 100 ∧
  0 ≤ p.historical_contamination ∧ p.historical_contamination ≤ 100

/-- The spec's input invariant on a weight set: all nine values lie in
[0, 10]. -/
def Weights.inRange (w : Weights) : Prop :=
  0 ≤ w.power ∧ w.power ≤ 10 ∧
  0 ≤ w.fiber ∧ w.fiber ≤ 10 ∧
  0 ≤ w.water ∧ w.water ≤ 10 ∧
  0 ≤ w.highway ∧ w.highway ≤ 10 ∧
  0 ≤ w.rail ∧ w.rail ≤ 10 ∧
  0 ≤ w.solar ∧ w.solar ≤ 10 ∧
  0 ≤ w.wind ∧ w.wind ≤ 10 ∧
  0 ≤ w.flood_risk ∧ w.flood_risk ≤ 10 ∧
  0 ≤ w.sentiment ∧ w.sentiment ≤ 10

/-- Loop invariant of the accumulation loop: when every factor value
lies in [0, 100], the weighted sum is non-negative and never exceeds the
accumulated total possible weight, which is itself non-negative. -/
theorem score_loop_bounds (weights : Weights) (fs : List (String × ℚ))
    (hfs : ∀ x ∈ fs, 0 ≤ x.2 ∧ x.2 ≤ 100) :
    0 ≤ (score_loop weights fs).1 ∧
    (score_loop weights fs).1 ≤ (score_loop weights fs).2.1 ∧
    0 ≤ (score_loop weights fs).2.1 := by
  induction fs with
  | nil => norm_num [score_loop]
  | cons x rest ih =>
    obtain ⟨label, raw⟩ := x
    have hx := hfs (label, raw) (by simp)
    have hrest := ih fun y hy => hfs y (by simp [hy])
    by_cases hw : weights.get (weight_mapping label) ≤ 0
    · simpa [score_loop, hw] using hrest
    · push_neg at hw
      have hwle := hw.le
      have h1 : 0 ≤ raw * weights.get (weight_mapping label) :=
        mul_nonneg hx.1 hwle
      have h2 : raw * weights.get (weight_mapping label) ≤
          weights.get (weight_mapping label) * 100 := by
        calc raw * weights.get (weight_mapping label)
            ≤ 100 * weights.get (weight_mapping label) :=
              mul_le_mul_of_nonneg_right hx.2 hwle
          _ = weights.get (weight_mapping label) * 100 := mul_comm _ _
      have h3 : 0 ≤ weights.get (weight_mapping label) * 100 := by positivity
      simp only [score_loop, if_neg (not_le.mpr hw)]
      exact ⟨add_nonneg h1 hrest.1, add_le_add h2 hrest.2.1,
        add_nonneg h3 hrest.2.2⟩

/-- Every normalized factor value lies in [0, 100] when the parcel's raw
attributes are in range and the flood slider is non-negative. -/
theorem factor_scores_bounds (parcel : Parcel) (slider : Int)
    (hb : parcel.inRange) (hs : 0 ≤ slider) :
    ∀ x ∈ factor_scores parcel slider, 0 ≤ x.2 ∧ x.2 ≤ 100 := by
  obtain ⟨h1, h2, h3, h4, h5, h6, h7, h8, h9, h10, h11, h12,
    h13, h14, h15, h16, h17, h18⟩ := hb
  have hsq : (0 : ℚ) ≤ (slider : ℚ) := by exact_mod_cast hs
  intro x hx
  simp only [factor_scores, List.mem_cons, List.not_mem_nil, or_false] at hx
  rcases hx with h | h | h | h | h | h | h | h | h | h <;> subst h
  · exact ⟨h1, h2⟩
  · exact ⟨h3, h4⟩
  · exact ⟨h5, h6⟩
  · exact ⟨h7, h8⟩
  · exact ⟨h9, h10⟩
  · exact ⟨h11, h12⟩
  · exact ⟨h13, h14⟩
  · cases hfz : parcel.flood_zone_bool
    · norm_num
    · exact ⟨le_max_left 0 _, max_le (by norm_num) (by linarith)⟩
  · show 0 ≤ 100 - parcel.historical_contamination ∧
      100 - parcel.historical_contamination ≤ 100
    exact ⟨by linarith, by linarith⟩
  · exact ⟨h15, h16⟩

/-- C2: for every parcel whose raw factors are in [0, 100] and every
weight set with all nine values in [0, 10] (the flood-risk weight also
passed as the slider), the computed score lies in [0, 100]; this covers
flood-zone parcels (the gate returns 0) and non-flood parcels alike. -/
theorem score_in_range (parcel : Parcel) (weights : Weights) (slider : Int)
    (hp : parcel.inRange) (hw : weights.inRange)
    (h0 : 0 ≤ slider) (h10 : slider ≤ 10) :
    0 ≤ (compute_parcel_score parcel weights slider).1 ∧
    (compute_parcel_score parcel weights slider).1 ≤ 100 := by
  unfold compute_parcel_score
  split_ifs with hgate
  · norm_num
  · have hfb := factor_scores_bounds parcel slider hp h0
    have hlb := score_loop_bounds weights _ hfb
    unfold score_finish
    split_ifs with htw
    · norm_num
    · have htwpos : 0 < (score_loop weights (factor_scores parcel slider)).2.1 :=
        lt_of_le_of_ne hlb.2.2 (Ne.symm htw)
      simp only
      constructor
      · exact div_nonneg (mul_nonneg (by norm_num) hlb.1) htwpos.le
      · rw [div_le_iff htwpos]
        nlinarith [hlb.2.1]

/-- Witness for C2: the Rosemount parcel with the Data Center persona
weights (flood slider 9) scores within [0, 100]. -/
theorem score_in_range_witness :
    rosemount.inRange ∧ dataCenterWeights.inRange ∧
    ((0 : Int) ≤ 9 ∧ (9 : Int) ≤ 10) ∧
    (0 ≤ (compute_parcel_score rosemount dataCenterWeights 9).1 ∧
     (compute_parcel_score rosemount dataCenterWeights 9).1 ≤ 100) :=
  ⟨by norm_num [Parcel.inRange, rosemount],
   by norm_num [Weights.inRange, dataCenterWeights],
   ⟨by norm_num, by norm_num⟩,
   score_in_range rosemount dataCenterWeights 9
     (by norm_num [Parcel.inRange, rosemount])
     (by norm_num [Weights.inRange, dataCenterWeights])
     (by norm_num) (by norm_num)⟩

/-- C4 amended: for every non-empty, non-whitespace-only input, the
heuristic returns the clamp to [0, 100] of `50 + 10 × (P − N)` where `P`
and `N` count *non-overlapping* (Python `str.count`) case-insensitive
substring occurrences of the fixed positive and negative terms in the
lower-cased text, and the result always lies in [0, 100]. -/
theorem sentiment_formula (text : String)
    (h : (text.data.isEmpty || text.data.all pythonIsSpace) = false) :
    simulate_sentiment_score text =
      max 0 (min 100 (50 + 10 *
        (((positive_words.map fun w =>
            countOccurrences w.data (pyLower text.data)).sum : Int) -
         ((negative_words.map fun w =>
            countOccurrences w.data (pyLower text.data)).sum : Int)))) ∧
    0 ≤ simulate_sentiment_score text ∧
    simulate_sentiment_score text ≤ 100 := by
  have hval : simulate_sentiment_score text =
      max 0 (min 100 (50 + 10 *
        (((positive_words.map fun w =>
            countOccurrences w.data (pyLower text.data)).sum : Int) -
         ((negative_words.map fun w =>
            countOccurrences w.data (pyLower text.data)).sum : Int)))) := by
    rw [simulate_sentiment_score, if_neg (by simp_all)]
  refine ⟨hval, ?_, ?_⟩
  · rw [hval]; exact le_max_left 0 _
  · rw [hval]
    exact max_le (by norm_num) (min_le_left _ _)

/-- Witness for C4: on the concrete input `"Concerns about traffic"`
(one positive hit `oppose`-free, two negative hits) the heuristic
matches the non-overlapping-count formula and stays in range. -/
theorem sentiment_formula_witness :
    (("Concerns about traffic".data.isEmpty ||
      "Concerns about traffic".data.all pythonIsSpace) = false) ∧
    (simulate_sentiment_score "Concerns about traffic" =
      max 0 (min 100 (50 + 10 *
        (((positive_words.map fun w =>
            countOccurrences w.data (pyLower "Concerns about traffic".data)).sum : Int) -
         ((negative_words.map fun w =>
            countOccurrences w.data (pyLower "Concerns about traffic".data)).sum : Int)))) ∧
     0 ≤ simulate_sentiment_score "Concerns about traffic" ∧
     simulate_sentiment_score "Concerns about traffic" ≤ 100) :=
  ⟨by decide, sentiment_formula "Concerns about traffic" (by decide)⟩

/-- The accumulation loop threads the weights dict through unchanged:
every access is a read. -/
theorem score_loop_state_dict (w : List (String × ℚ)) :
    ∀ fs : List (String × ℚ), (score_loop_state w fs).2 = w := by
  intro fs
  induction fs generalizing w with
  | nil => rfl
  | cons x rest ih =>
    obtain ⟨label, raw⟩ := x
    simp only [score_loop_state, wdict_get]
    split <;> simp [ih]

/-- The Rosemount `TAP_DATA` entry as a Python dict. -/
def rosemount_pydict : PyDict :=
  [("city", .str "Rosemount, MN"), ("lat", .num 44.739), ("lon", .num (-93.093)),
   ("power_dist", .num 92), ("fiber_dist", .num 88), ("water_access", .num 85),
   ("highway_access", .num 78), ("rail_access", .num 60),
   ("solar_potential", .num 74), ("wind_potential", .num 58),
   ("flood_zone_bool", .bool false), ("historical_contamination", .num 15),
   ("council_sentiment", .num 82)]

/-- The power-only weight set as a Python dict. -/
def power_only_wdict : List (String × ℚ) :=
  [("power", 10), ("fiber", 0), ("water", 0), ("highway", 0), ("rail", 0),
   ("solar", 0), ("wind", 0), ("flood_risk", 0), ("sentiment", 0)]

/-- C10: `compute_parcel_score` leaves both of its mapping arguments
unchanged — on every execution that completes, the parcel dict and the
weights dict returned by the state-threaded embedding are identical to
the inputs; the function only reads them and builds a fresh
contributions mapping. -/
theorem compute_parcel_score_frame (parcel : PyDict)
    (weights : List (String × ℚ)) (slider : Int)
    (out : (ℚ × List (String × ℚ)) × PyDict × List (String × ℚ))
    (h : compute_parcel_score_state parcel weights slider = some out) :
    out.2.1 = parcel ∧ out.2.2 = weights := by
  unfold compute_parcel_score_state at h
  simp only [read_truthy, read_num] at h
  repeat' split at h
  all_goals try (exact Option.noConfusion h)
  all_goals obtain rfl := Option.some.inj h
  all_goals simp_all [Prod.mk.injEq, score_loop_state_dict]

/-- Witness for C10: running the state-threaded scorer on the Rosemount
dict with the power-only weights completes and returns both dicts
unchanged. -/
theorem compute_parcel_score_frame_witness :
    compute_parcel_score_state rosemount_pydict power_only_wdict 0 =
      some ((92, [("Power", 920)]), rosemount_pydict, power_only_wdict) ∧
    ((((92 : ℚ), [("Power", (920 : ℚ))]), rosemount_pydict,
        power_only_wdict).2.1 = rosemount_pydict ∧
     (((92 : ℚ), [("Power", (920 : ℚ))]), rosemount_pydict,
        power_only_wdict).2.2 = power_only_wdict) := by
  have heval : compute_parcel_score_state rosemount_pydict power_only_wdict 0 =
      some ((92, [("Power", 920)]), rosemount_pydict, power_only_wdict) := by
    have hfz : List.lookup "flood_zone_bool" rosemount_pydict = some (PyVal.bool false) := by
      simp [rosemount_pydict, List.lookup]
    have hp0 : List.lookup "power_dist" rosemount_pydict = some (PyVal.num 92) := by
      simp [rosemount_pydict, List.lookup]
    have hp1 : List.lookup "fiber_dist" rosemount_pydict = some (PyVal.num 88) := by
      simp [rosemount_pydict, List.lookup]
    have hp2 : List.lookup "water_access" rosemount_pydict = some (PyVal.num 85) := by
      simp [rosemount_pydict, List.lookup]
    have hp3 : List.lookup "highway_access" rosemount_pydict = some (PyVal.num 78) := by
      simp [rosemount_pydict, List.lookup]
    have hp4 : List.lookup "rail_access" rosemount_pydict = some (PyVal.num 60) := by
      simp [rosemount_pydict, List.lookup]
    have hp5 : List.lookup "solar_potential" rosemount_pydict = some (PyVal.num 74) := by
      simp [rosemount_pydict, List.lookup]
    have hp6 : List.lookup "wind_potential" rosemount_pydict = some (PyVal.num 58) := by
      simp [rosemount_pydict, List.lookup]
    have hp7 : List.lookup "historical_contamination" rosemount_pydict = some (PyVal.num 15) := by
      simp [rosemount_pydict, List.lookup]
    have hp8 : List.lookup "council_sentiment" rosemount_pydict = some (PyVal.num 82) := by
      simp [rosemount_pydict, List.lookup]
    have hw0 : List.lookup "power" power_only_wdict = some 10 := by
      simp [power_only_wdict, List.lookup]
    have hw1 : List.lookup "fiber" power_only_wdict = some 0 := by
      simp [power_only_wdict, List.lookup]
    have hw2 : List.lookup "water" power_only_wdict = some 0 := by
      simp [power_only_wdict, List.lookup]
    have hw3 : List.lookup "highway" power_only_wdict = some 0 := by
      simp [power_only_wdict, List.lookup]
    have hw4 : List.lookup "rail" power_only_wdict = some 0 := by
      simp [power_only_wdict, List.lookup]
    have hw5 : List.lookup "solar" power_only_wdict = some 0 := by
      simp [power_only_wdict, List.lookup]
    have hw6 : List.lookup "wind" power_only_wdict = some 0 := by
      simp [power_only_wdict, List.lookup]
    have hw7 : List.lookup "flood_risk" power_only_wdict = some 0 := by
      simp [power_only_wdict, List.lookup]
    have hw8 : List.lookup "sentiment" power_only_wdict = some 0 := by
      simp [power_only_wdict, List.lookup]
    have hm0 : weight_mapping "Power" = "power" := rfl
    have hm1 : weight_mapping "Fiber" = "fiber" := rfl
    have hm2 : weight_mapping "Water" = "water" := rfl
    have hm3 : weight_mapping "Highway" = "highway" := rfl
    have hm4 : weight_mapping "Rail" = "rail" := rfl
    have hm5 : weight_mapping "Solar GHI" = "solar" := rfl
    have hm6 : weight_mapping "Wind" = "wind" := rfl
    have hm7 : weight_mapping "Low Flood Exposure" = "flood_risk" := rfl
    have hm8 : weight_mapping "Clean History" = "sentiment" := rfl
    have hm9 : weight_mapping "Council Sentiment" = "sentiment" := rfl
    norm_num [compute_parcel_score_state, read_truthy, read_num, pyNum,
      pyTruthy, wdict_get, score_loop_state,
      hfz, hp0, hp1, hp2, hp3, hp4, hp5, hp6, hp7, hp8, hw0, hw1, hw2, hw3, hw4, hw5, hw6, hw7, hw8, hm0, hm1, hm2, hm3, hm4, hm5, hm6, hm7, hm8, hm9]
  exact ⟨heval,
    compute_parcel_score_frame rosemount_pydict power_only_wdict 0 _ heval⟩

end LandEngine
